import Mathlib

/-!
Verification of the Propsely backend (src/app.py) against its
natural-language specification.

The Python source is shallowly embedded: strings become `String`
(Python slicing `s[:n]` becomes `pySlice`, `str.strip()` becomes
`pyStrip`), fallible external collaborators (the OpenAI completion
call, the R2 upload/presign calls, the local file write) become
explicit `Except` parameters, and every `try/except` becomes a match
on those parameters.  Monetary amounts are exact rationals.
-/

set_option maxRecDepth 100000

namespace Propsely

/-! ## Generic string helpers used by the embedding -/

/-- Python slicing `s[:n]`: the first `n` characters of `s`. -/
def pySlice (s : String) (n : Nat) : String := String.mk (s.data.take n)

/-- Python `str.strip()` (no arguments): drop whitespace from both ends. -/
def pyStrip (s : String) : String :=
  String.mk (((s.data.dropWhile Char.isWhitespace).reverse.dropWhile
    Char.isWhitespace).reverse)

/-- Boolean contiguous-sublist test on character lists: `listContains l p`
is `true` exactly when `p` occurs contiguously inside `l`. -/
def listContains : List Char → List Char → Bool
  | [], p => p.isEmpty
  | l@(_ :: t), p => p.isPrefixOf l || listContains t p

/-- Python `pat in s`: substring containment, via `listContains`. -/
def containsStr (s pat : String) : Bool := listContains s.data pat.data

theorem listContains_nil_pat (l : List Char) : listContains l [] = true := by
  cases l <;> simp [listContains]

theorem listContains_of_eq_append (l p b : List Char) (h : l = p ++ b) :
    listContains l p = true := by
  subst h
  cases hp : p ++ b with
  | nil =>
    have hpn : p = [] := by
      rcases List.append_eq_nil.mp hp with ⟨h1, _⟩
      exact h1
    simp [hpn, listContains_nil_pat]
  | cons c t =>
    rw [listContains]
    have hpp : p.isPrefixOf (c :: t) = true := by
      rw [← hp]
      exact List.isPrefixOf_iff_prefix.mpr ( List.prefix_append p b)
    simp [hpp]

theorem listContains_append_left (a l p : List Char)
    (h : listContains l p = true) : listContains (a ++ l) p = true := by
  induction a with
  | nil => simpa
  | cons c a ih =>
    rw [List.cons_append, listContains]
    simp [ih]

theorem listContains_append_right (l b p : List Char)
    (h : listContains l p = true) : listContains (l ++ b) p = true := by
  induction l with
  | nil =>
    have hp : p = [] := by
      simpa [listContains, List.isEmpty_iff] using h
    simp [hp, listContains_nil_pat]
  | cons c t ih =>
    rw [listContains] at h
    rcases Bool.or_eq_true_iff.mp h with h1 | h2
    · rw [List.cons_append, listContains]
      have hpre : p <+: (c :: t) := List.isPrefixOf_iff_prefix.mp h1
      have : p.isPrefixOf (c :: t ++ b) = true :=
        List.isPrefixOf_iff_prefix.mpr (hpre.trans ( List.prefix_append _ b))
      simp_all
    · rw [List.cons_append, listContains]
      simp [ih h2]

theorem listContains_of_parts (a p b : List Char) :
    listContains (a ++ (p ++ b)) p = true :=
  listContains_append_left a _ p (listContains_of_eq_append _ p b rfl)

/-- Monotonicity: a pattern occurring in `s` occurs in `t ++ s`. -/
theorem csL (t : String) {s p : String} (h : containsStr s p = true) :
    containsStr (t ++ s) p = true := by
  unfold containsStr at *
  rw [String.data_append]
  exact listContains_append_left _ _ _ h

/-- Monotonicity: a pattern occurring in `s` occurs in `s ++ t`. -/
theorem csR (t : String) {s p : String} (h : containsStr s p = true) :
    containsStr (s ++ t) p = true := by
  unfold containsStr at *
  rw [String.data_append]
  exact listContains_append_right _ _ _ h

/-- Reflexivity of substring containment. -/
theorem containsStr_self (p : String) : containsStr p p = true := by
  unfold containsStr
  exact listContains_of_eq_append _ _ [] (by simp)

/-! ## Proposal text composer (`generate_proposal_text`, src/app.py:232-332)

The request payload `data : dict` becomes a structure of optional
fields; `data.get(k, default)` becomes `Option.getD`.  The OpenAI
collaborator becomes a function `complete : String → Except Unit String`
receiving the prompt; `apiKeyConfigured` mirrors the module-level
`OPENAI_API_KEY` check.  The source catches every exception of the
external call and returns a fallback template, so the embedding is a
total function into `String`. -/

structure GenData where
  client_name : Option String
  project_title : Option String
  scope : Option String
  budget : Option String
  timeline : Option String
  tone : Option String
  notes : Option String

/-- Prompt built at src/app.py:244-265 (the f-string, `.strip()` applied). -/
def promptOf (d : GenData) : String :=
  let client_name := d.client_name.getD "Client"
  let project_title := d.project_title.getD "Project"
  let scope := d.scope.getD ""
  let budget := d.budget.getD "Not specified"
  let timeline := d.timeline.getD "Not specified"
  let tone := d.tone.getD "Professional and friendly"
  let notes := d.notes.getD ""
  pyStrip ("\nYou are an expert proposal writer.\n\nWrite a clear, client-ready proposal.\n\nClient Name: "
    ++ client_name ++ "\nProject Title: " ++ project_title ++ "\nScope: "
    ++ scope ++ "\nBudget: " ++ budget ++ "\nTimeline: " ++ timeline
    ++ "\nTone: " ++ tone ++ "\nExtra Notes: " ++ notes
    ++ "\n\nStructure with headings:\n- Introduction\n- Project Understanding\n- Scope of Work\n- Deliverables\n- Timeline\n- Investment\n- Next Steps\n")

/-- Fallback template returned when no API key is configured
(src/app.py:267-296). -/
def fallbackNoKey (d : GenData) : String :=
  let client_name := d.client_name.getD "Client"
  let project_title := d.project_title.getD "Project"
  let scope := d.scope.getD ""
  let budget := d.budget.getD "Not specified"
  let timeline := d.timeline.getD "Not specified"
  "# Proposal: " ++ project_title
    ++ "\n\n## Introduction\nThank you, " ++ client_name
    ++ ", for the opportunity to collaborate on this project.\n\n## Project Understanding\n"
    ++ (if scope = "" then
          "We will work closely with you to clarify project goals and success metrics."
        else scope)
    ++ "\n\n## Scope of Work\n- Requirement analysis and planning\n- Design and implementation\n- Testing and quality assurance\n- Launch and post-launch support\n\n## Deliverables\n- Fully implemented solution\n- Documentation and training (if required)\n- Handover of project assets\n\n## Timeline\n"
    ++ timeline
    ++ "\n\n## Investment\n"
    ++ budget
    ++ "\n\n## Next Steps\nOnce this proposal is approved, we will finalize the timeline and begin the onboarding process.\n"

/-- Fallback template returned when the external completion call raises
(src/app.py:313-332). -/
def fallbackOnError (d : GenData) : String :=
  let client_name := d.client_name.getD "Client"
  let project_title := d.project_title.getD "Project"
  let scope := d.scope.getD ""
  let budget := d.budget.getD "Not specified"
  let timeline := d.timeline.getD "Not specified"
  "# Proposal: " ++ project_title
    ++ "\n\n## Introduction\nThank you, " ++ client_name
    ++ ", for considering us.\n\n## Project Understanding\n"
    ++ scope
    ++ "\n\n## Timeline\n"
    ++ timeline
    ++ "\n\n## Investment\n"
    ++ budget
    ++ "\n\n## Next Steps\nWe can adjust this proposal as needed to best fit your goals.\n"

/-- Embedding of `generate_proposal_text` (src/app.py:232-332).  Every
exception raised by the external call is caught by the source's
`except Exception` (src/app.py:313), so the embedding is total. -/
def generate_proposal_text (apiKeyConfigured : Bool)
    (complete : String → Except Unit String) (d : GenData) : String :=
  if !apiKeyConfigured then fallbackNoKey d
  else
    match complete (promptOf d) with
    | Except.ok content => content
    | Except.error _ => fallbackOnError d

/-- Example payload with every optional field absent. -/
def emptyGenData : GenData := ⟨none, none, none, none, none, none, none⟩

/-! ## Claims C1 and C2 -/

/-- C1: for every field mapping, `generate_proposal_text` returns a
proposal body string and never propagates an exception: when the
external text-generation call fails, the failure is absorbed locally by
returning the deterministic fallback body.  (Totality of the embedding
reflects that the source wraps the only fallible call in a catch-all
`except Exception`.) -/
theorem generate_absorbs_external_failure (d : GenData)
    (complete : String → Except Unit String)
    (h : complete (promptOf d) = Except.error ()) :
    generate_proposal_text true complete d = fallbackOnError d := by
  unfold generate_proposal_text
  rw [h]
  rfl

theorem generate_absorbs_external_failure_witness :
    generate_proposal_text true (fun _ => Except.error ()) emptyGenData
      = fallbackOnError emptyGenData :=
  generate_absorbs_external_failure emptyGenData (fun _ => Except.error ()) rfl

/-- C2: with no text-generation collaborator configured, the composer is
deterministic: its output does not depend on the external collaborator
at all (so two calls with identical field mappings are byte-identical —
the pure embedding has no other source of nondeterminism). -/
theorem generate_deterministic_without_key (d : GenData)
    (complete1 complete2 : String → Except Unit String) :
    generate_proposal_text false complete1 d
      = generate_proposal_text false complete2 d := by
  rfl

/-! ## Claims C3 and C10 -/

/-- C3 counterexample: the claim says the fallback used on external
failure carries the same seven section headings as the prompt, but the
failure-path template (src/app.py:316-332) has no Scope of Work and no
Deliverables section at all. -/
theorem error_fallback_missing_headings :
    containsStr
        (generate_proposal_text true (fun _ => Except.error ()) emptyGenData)
        "Scope of Work" = false
      ∧ containsStr
        (generate_proposal_text true (fun _ => Except.error ()) emptyGenData)
        "Deliverables" = false := by
  decide

/-- C3 amended: the no-collaborator fallback contains all seven fixed
section headings with the raw field values substituted directly; the
external-failure fallback contains the Introduction, Project
Understanding, Timeline, Investment and Next Steps headings with the
raw field values, but omits the Scope of Work and Deliverables
headings. -/
theorem fallback_section_headings (d : GenData)
    (complete : String → Except Unit String)
    (h : complete (promptOf d) = Except.error ()) :
    (containsStr (generate_proposal_text false complete d) "## Introduction" = true
      ∧ containsStr (generate_proposal_text false complete d) "## Project Understanding" = true
      ∧ containsStr (generate_proposal_text false complete d) "## Scope of Work" = true
      ∧ containsStr (generate_proposal_text false complete d) "## Deliverables" = true
      ∧ containsStr (generate_proposal_text false complete d) "## Timeline" = true
      ∧ containsStr (generate_proposal_text false complete d) "## Investment" = true
      ∧ containsStr (generate_proposal_text false complete d) "## Next Steps" = true
      ∧ containsStr (generate_proposal_text false complete d)
          (d.timeline.getD "Not specified") = true
      ∧ containsStr (generate_proposal_text false complete d)
          (d.budget.getD "Not specified") = true)
    ∧ (containsStr (generate_proposal_text true complete d) "## Introduction" = true
      ∧ containsStr (generate_proposal_text true complete d) "## Project Understanding" = true
      ∧ containsStr (generate_proposal_text true complete d) "## Timeline" = true
      ∧ containsStr (generate_proposal_text true complete d) "## Investment" = true
      ∧ containsStr (generate_proposal_text true complete d) "## Next Steps" = true
      ∧ containsStr (generate_proposal_text true complete d)
          (d.scope.getD "") = true
      ∧ containsStr (generate_proposal_text true complete d)
          (d.timeline.getD "Not specified") = true
      ∧ containsStr (generate_proposal_text true complete d)
          (d.budget.getD "Not specified") = true) := by
  have hfalse : generate_proposal_text false complete d = fallbackNoKey d := rfl
  have htrue : generate_proposal_text true complete d = fallbackOnError d := by
    unfold generate_proposal_text
    rw [h]
    rfl
  rw [hfalse, htrue]
  simp only [fallbackNoKey, fallbackOnError]
  refine ⟨⟨?_, ?_, ?_, ?_, ?_, ?_, ?_, ?_, ?_⟩, ?_, ?_, ?_, ?_, ?_, ?_, ?_, ?_⟩
  · exact csR _ (csR _ (csR _ (csR _ (csR _ (csR _ (csR _ (csR _ (csL _ (by decide)))))))))
  · exact csR _ (csR _ (csR _ (csR _ (csR _ (csR _ (csL _ (by decide)))))))
  · exact csR _ (csR _ (csR _ (csR _ (csL _ (by decide)))))
  · exact csR _ (csR _ (csR _ (csR _ (csL _ (by decide)))))
  · exact csR _ (csR _ (csR _ (csR _ (csL _ (by decide)))))
  · exact csR _ (csR _ (csL _ (by decide)))
  · exact csL _ (by decide)
  · exact csR _ (csR _ (csR _ (csL _ (containsStr_self _))))
  · exact csR _ (csL _ (containsStr_self _))
  · exact csR _ (csR _ (csR _ (csR _ (csR _ (csR _ (csR _ (csR _ (csL _ (by decide)))))))))
  · exact csR _ (csR _ (csR _ (csR _ (csR _ (csR _ (csL _ (by decide)))))))
  · exact csR _ (csR _ (csR _ (csR _ (csL _ (by decide)))))
  · exact csR _ (csR _ (csL _ (by decide)))
  · exact csL _ (by decide)
  · exact csR _ (csR _ (csR _ (csR _ (csR _ (csL _ (containsStr_self _))))))
  · exact csR _ (csR _ (csR _ (csL _ (containsStr_self _))))
  · exact csR _ (csL _ (containsStr_self _))

theorem fallback_section_headings_witness :
    containsStr
        (generate_proposal_text true (fun _ => Except.error ()) emptyGenData)
        "## Next Steps" = true :=
  (fallback_section_headings emptyGenData (fun _ => Except.error ()) rfl).2.2.2.2.2.1

/-- C10: in the no-collaborator fallback, a missing or empty scope field
makes the Project Understanding section carry the fixed default
sentence. -/
theorem empty_scope_gets_default_sentence (d : GenData)
    (complete : String → Except Unit String)
    (h : d.scope = none ∨ d.scope = some "") :
    containsStr (generate_proposal_text false complete d)
      "We will work closely with you to clarify project goals and success metrics."
      = true := by
  have hs : d.scope.getD "" = "" := by
    rcases h with h | h <;> simp [h]
  have hfalse : generate_proposal_text false complete d = fallbackNoKey d := rfl
  rw [hfalse]
  simp only [fallbackNoKey, hs, if_pos rfl]
  exact csR _ (csR _ (csR _ (csR _ (csR _ (csL _ (containsStr_self _))))))

theorem empty_scope_gets_default_sentence_witness :
    containsStr (generate_proposal_text false (fun _ => Except.error ()) emptyGenData)
      "We will work closely with you to clarify project goals and success metrics."
      = true :=
  empty_scope_gets_default_sentence emptyGenData (fun _ => Except.error ())
    (Or.inl rfl)

/-! ## Plain-text document assembler
(`build_pdf_bytes_from_content`, src/app.py:338-362)

The ReportLab canvas is abstracted as the ordered list of operations
performed on it; the A4 page height (841.8897637795277pt) and the
vertical cursor are exact rationals (the float rounding of the source
cannot change which strings are drawn, only coordinates). -/

inductive PdfOp where
  | setFont (fontName : String) (size : Nat)
  | drawString (x y : ℚ) (s : String)
  | showPage
deriving DecidableEq

/-- Height of an A4 page in points, as used by `reportlab.lib.pagesizes.A4`. -/
def a4Height : ℚ := 8418897637795277 / 10000000000000000 * 1000

/-- Body loop of `build_pdf_bytes_from_content` (src/app.py:352-358):
page-break when the cursor is above the bottom margin, then draw the
line hard-truncated to 100 characters and advance by 16pt. -/
def drawBody : List String → ℚ → List PdfOp
  | [], _ => []
  | line :: rest, y =>
    if y < 50 then
      PdfOp.showPage :: PdfOp.setFont "Helvetica" 11
        :: PdfOp.drawString 50 (a4Height - 50) (pySlice line 100)
        :: drawBody rest (a4Height - 50 - 16)
    else
      PdfOp.drawString 50 y (pySlice line 100) :: drawBody rest (y - 16)

/-- Embedding of `build_pdf_bytes_from_content` (src/app.py:338-362) as
the sequence of canvas operations. -/
def build_pdf_bytes_from_content (title content : String) : List PdfOp :=
  PdfOp.setFont "Helvetica-Bold" 16
    :: PdfOp.drawString 50 (a4Height - 50) (pySlice title 90)
    :: PdfOp.setFont "Helvetica" 11
    :: drawBody (content.splitOn "\n") (a4Height - 50 - 30)

/-- Projection of a canvas operation to the text it draws, if any. -/
def textOf : PdfOp → Option String
  | PdfOp.drawString _ _ s => some s
  | _ => none

/-- Strings drawn on the canvas, in drawing order. -/
def drawnTexts (ops : List PdfOp) : List String := ops.filterMap textOf

theorem drawnTexts_drawBody (lines : List String) (y : ℚ) :
    drawnTexts (drawBody lines y) = lines.map (fun l => pySlice l 100) := by
  induction lines generalizing y with
  | nil => rfl
  | cons line rest ih =>
    unfold drawBody
    by_cases h : y < 50
    · simp only [if_pos h, drawnTexts, List.filterMap_cons, textOf, List.map_cons]
      exact congrArg (List.cons (pySlice line 100)) (ih _)
    · simp only [if_neg h, drawnTexts, List.filterMap_cons, textOf, List.map_cons]
      exact congrArg (List.cons (pySlice line 100)) (ih _)

theorem drawnTexts_build (title content : String) :
    drawnTexts (build_pdf_bytes_from_content title content)
      = pySlice title 90 :: (content.splitOn "\n").map (fun l => pySlice l 100) := by
  unfold build_pdf_bytes_from_content
  simp [drawnTexts, textOf, List.filterMap_cons]
  exact drawnTexts_drawBody _ _

/-! ## Claims C7 and C9 -/

/-- C7: every body line of the input content is emitted as exactly one
drawn line holding its first at-most-100 characters; excess characters
are dropped, never wrapped onto a following drawn line. -/
theorem body_lines_hard_truncated (title content : String) :
    (drawnTexts (build_pdf_bytes_from_content title content)).tail
        = (content.splitOn "\n").map (fun l => pySlice l 100)
      ∧ (∀ s : String, (pySlice s 100).length ≤ 100)
      ∧ (∀ s : String, (pySlice s 100).data = s.data.take 100) := by
  refine ⟨?_, ?_, fun s => rfl⟩
  · rw [drawnTexts_build]
    rfl
  · intro s
    show (s.data.take 100).length ≤ 100
    simp [List.length_take]

/-- C9: the title drawn on the first page is the first 90 characters of
the given title; a title of at most 90 characters is drawn in full. -/
theorem title_truncated_to_90 (title content : String) :
    (drawnTexts (build_pdf_bytes_from_content title content)).head?
        = some (pySlice title 90)
      ∧ (title.length ≤ 90 →
          (drawnTexts (build_pdf_bytes_from_content title content)).head?
            = some title) := by
  constructor
  · rw [drawnTexts_build]
    rfl
  · intro h
    rw [drawnTexts_build]
    have : pySlice title 90 = title := by
      unfold pySlice
      rw [List.take_of_length_le h]
    rw [this]
    rfl

theorem title_truncated_to_90_witness :
    (drawnTexts (build_pdf_bytes_from_content "Hello World" "line one")).head?
      = some "Hello World" :=
  (title_truncated_to_90 "Hello World" "line one").2 (by decide)

/-! ## Filename sanitization (`werkzeug.utils.secure_filename`)

External library collaborator, modelled for ASCII input after its
documented algorithm: path separators become spaces, the string is
split on whitespace and re-joined with underscores, characters outside
`[A-Za-z0-9_.-]` are removed, and leading/trailing `.` and `_` are
stripped.  (Unicode NFKD normalization and the Windows device-name
special case are out of scope for the inputs considered here.) -/

def allowedChar (c : Char) : Bool := c.isAlphanum || c == '_' || c == '.' || c == '-'

def stripEdgeChar (c : Char) : Bool := c == '.' || c == '_'

def secure_filename (s : String) : String :=
  let replaced := s.data.map fun c => if c == '/' then ' ' else c
  let words := (replaced.splitOnP fun c => c.isWhitespace).filter fun w => !w.isEmpty
  let joined := List.intercalate ['_'] words
  let kept := joined.filter allowedChar
  String.mk (((kept.dropWhile stripEdgeChar).reverse.dropWhile stripEdgeChar).reverse)

theorem allowedChar_ne_slash {c : Char} (h : allowedChar c = true) :
    (c == '/') = false := by
  by_cases hc : c = '/'
  · subst hc
    exact absurd h (by decide)
  · simp [hc]

theorem allowedChar_not_ws {c : Char} (h : allowedChar c = true) :
    c.isWhitespace = false := by
  by_cases hw : c.isWhitespace = true
  · have hcases : ((c = ' ' ∨ c = '\t') ∨ c = '\r') ∨ c = '\n' := by
      simpa [Char.isWhitespace] using hw
    rcases hcases with ((h1 | h1) | h1) | h1 <;> subst h1 <;> exact absurd h (by decide)
  · simpa using hw

theorem secure_filename_allowed (s : String) :
    ∀ c ∈ (secure_filename s).data, allowedChar c = true := by
  intro c hc
  unfold secure_filename at hc
  simp only [String.mk] at hc
  have h1 := List.mem_reverse.mp hc
  have h2 := List.dropWhile_subset _ h1
  have h3 := List.mem_reverse.mp h2
  have h4 := List.dropWhile_subset _ h3
  exact List.of_mem_filter h4

/-- Idempotence core: a nonempty string whose characters are all in the
allowed class and whose two ends are not `.` or `_` is a fixed point of
`secure_filename`. -/
theorem secure_filename_clean (s : String)
    (hall : ∀ c ∈ s.data, allowedChar c = true)
    (hfirst : ∀ (c : Char) (t : List Char), s.data = c :: t → stripEdgeChar c = false)
    (hlast : ∀ (c : Char) (t : List Char), s.data = t ++ [c] → stripEdgeChar c = false)
    (hne : s.data ≠ []) :
    secure_filename s = s := by
  simp only [secure_filename]
  have hrep : (s.data.map fun c => if c == '/' then ' ' else c) = s.data := by
    have := List.map_congr_left (l := s.data)
      (f := fun c => if c == '/' then ' ' else c) (g := id)
      (fun c hcm => by simp [allowedChar_ne_slash (hall c hcm)])
    simpa using this
  rw [hrep]
  have hsplit : (s.data.splitOnP fun c => c.isWhitespace) = [s.data] := by
    refine List.splitOnP_eq_single _ _ (fun c hcm => ?_)
    simp [allowedChar_not_ws (hall c hcm)]
  rw [hsplit]
  have hfilter1 : ([s.data].filter fun w => !w.isEmpty) = [s.data] := by
    have hie : s.data.isEmpty = false := by
      simpa [List.isEmpty_iff] using hne
    simp [List.filter, hie]
  rw [hfilter1]
  have hinter : List.intercalate ['_'] [s.data] = s.data := by
    simp [List.intercalate]
  rw [hinter]
  have hfilter2 : s.data.filter allowedChar = s.data := List.filter_eq_self.mpr hall
  rw [hfilter2]
  cases hd : s.data with
  | nil => exact absurd hd hne
  | cons c t =>
    rw [List.dropWhile_cons_of_neg (by simp [hfirst c t hd])]
    rcases List.eq_nil_or_concat (c :: t) with hcon | ⟨L, b, hcon⟩
    · exact absurd hcon (by simp)
    · rw [List.concat_eq_append] at hcon
      have hb : stripEdgeChar b = false := hlast b L (hd.trans hcon)
      rw [hcon, List.reverse_append, List.reverse_singleton, List.singleton_append,
        List.dropWhile_cons_of_neg (by simp [hb])]
      have hrev : (b :: L.reverse).reverse = L ++ [b] := by simp
      rw [hrev, ← hcon, ← hd]

/-! ## Storage resolver (`store_pdf_and_get_url`, src/app.py:398-433)

The R2 client presence, the upload call, the presign call and the local
file write are collaborators, passed as explicit outcomes; the
`uuid.uuid4().hex` value is a parameter.  The catch-all around
upload+presign (src/app.py:410-417) becomes the `Option` computation of
`downloadUrl`; Python falsiness of `None` and `""` is `getD "" = ""`. -/

def resolveSafeFilename (filename uid : String) : String :=
  if secure_filename filename = "" then "proposal_" ++ uid ++ ".pdf"
  else secure_filename filename

def store_pdf_and_get_url (r2Configured : Bool)
    (uploadOutcome : Except Unit Unit) (presignOutcome : Except Unit String)
    (localWriteOutcome : Except Unit Unit) (baseUrl uid filename : String) :
    Except String (String × String) :=
  let safe_filename := resolveSafeFilename filename uid
  let downloadUrl : Option String :=
    if r2Configured then
      match uploadOutcome with
      | Except.ok _ =>
        match presignOutcome with
        | Except.ok u => some u
        | Except.error _ => none
      | Except.error _ => none
    else none
  if downloadUrl.getD "" = "" then
    match localWriteOutcome with
    | Except.ok _ =>
      Except.ok (safe_filename, baseUrl ++ "/api/proposals/download/" ++ safe_filename)
    | Except.error _ => Except.error "Failed to store PDF"
  else
    Except.ok (safe_filename, downloadUrl.getD "")

/-! ## Claim C5 -/

/-- C5: when the upload or the presign step fails, the resolver still
returns a (filename, url) pair via the local fallback, and it returns an
error only when the local write also fails. -/
theorem store_falls_back_to_local (presignOutcome : Except Unit String)
    (baseUrl uid filename : String) :
    (store_pdf_and_get_url true (Except.error ()) presignOutcome (Except.ok ())
        baseUrl uid filename
      = Except.ok (resolveSafeFilename filename uid,
          baseUrl ++ "/api/proposals/download/" ++ resolveSafeFilename filename uid))
    ∧ (store_pdf_and_get_url true (Except.ok ()) (Except.error ()) (Except.ok ())
        baseUrl uid filename
      = Except.ok (resolveSafeFilename filename uid,
          baseUrl ++ "/api/proposals/download/" ++ resolveSafeFilename filename uid))
    ∧ (store_pdf_and_get_url true (Except.error ()) presignOutcome (Except.error ())
        baseUrl uid filename
      = Except.error "Failed to store PDF")
    ∧ (store_pdf_and_get_url true (Except.ok ()) (Except.error ()) (Except.error ())
        baseUrl uid filename
      = Except.error "Failed to store PDF") :=
  ⟨rfl, rfl, rfl, rfl⟩

/-! ## Proposal creation route (`proposals_create`, src/app.py:548-605)

The route is modelled from JWT user lookup onward: the user lookup, the
JSON payload fields, and the storage collaborators are parameters.  The
response is the returned JSON variant; an effects record tracks whether
the PDF builder ran (and with which canvas operations) and whether the
storage resolver was invoked, so the claims about "no document built,
no storage attempted" are statable. -/

inductive CreateResponse where
  | userNotFound
  | validationError (msg : String)
  | pdfFailed (msg : String)
  | created (title content : String) (pdf_filename pdf_url : Option String)
deriving DecidableEq

structure CreateEffects where
  pdfOps : Option (List PdfOp)
  storageAttempted : Bool
deriving DecidableEq

/-- Filename composed at src/app.py:577:
`proposal_{secure_filename(title)[:40]}_{proposal.id}.pdf`. -/
def createSafeName (title : String) (proposalId : Nat) : String :=
  "proposal_" ++ pySlice (secure_filename title) 40 ++ "_" ++ toString proposalId ++ ".pdf"

def proposals_create (userFound : Bool) (titleIn contentIn : Option String)
    (generatePdfFlag : Bool) (proposalId : Nat) (r2Configured : Bool)
    (uploadOutcome : Except Unit Unit) (presignOutcome : Except Unit String)
    (localWriteOutcome : Except Unit Unit) (baseUrl uid : String) :
    CreateResponse × CreateEffects :=
  if !userFound then (CreateResponse.userNotFound, ⟨none, false⟩)
  else
    let title := pyStrip (titleIn.getD "")
    let content := pyStrip (contentIn.getD "")
    if title = "" || content = "" then
      (CreateResponse.validationError "Title and content are required", ⟨none, false⟩)
    else if generatePdfFlag then
      let pdf := build_pdf_bytes_from_content title content
      let safe_name := createSafeName title proposalId
      match store_pdf_and_get_url r2Configured uploadOutcome presignOutcome
          localWriteOutcome baseUrl uid safe_name with
      | Except.ok (fn, url) =>
        (CreateResponse.created title content (some fn) (some url), ⟨some pdf, true⟩)
      | Except.error e => (CreateResponse.pdfFailed e, ⟨some pdf, true⟩)
    else (CreateResponse.created title content none none, ⟨none, false⟩)

/-! ## Claim C6 -/

/-- C6: an empty (after trimming) title or content makes the create
operation answer with the validation error and stop: no PDF is built
and no storage call is attempted. -/
theorem create_validates_before_building (titleIn contentIn : Option String)
    (generatePdfFlag : Bool) (proposalId : Nat) (r2Configured : Bool)
    (uploadOutcome : Except Unit Unit) (presignOutcome : Except Unit String)
    (localWriteOutcome : Except Unit Unit) (baseUrl uid : String)
    (h : pyStrip (titleIn.getD "") = "" ∨ pyStrip (contentIn.getD "") = "") :
    proposals_create true titleIn contentIn generatePdfFlag proposalId r2Configured
        uploadOutcome presignOutcome localWriteOutcome baseUrl uid
      = (CreateResponse.validationError "Title and content are required",
         ⟨none, false⟩) := by
  rcases h with h | h <;> simp [proposals_create, h]

theorem create_validates_before_building_witness :
    proposals_create true (some "   ") (some "Some content") true 1 false
        (Except.ok ()) (Except.ok "r2url") (Except.ok ()) "http://localhost:5000" "u"
      = (CreateResponse.validationError "Title and content are required",
         ⟨none, false⟩) :=
  create_validates_before_building (some "   ") (some "Some content") true 1 false
    (Except.ok ()) (Except.ok "r2url") (Except.ok ()) "http://localhost:5000" "u"
    (Or.inl (by decide))

/-! ## Claim C8 -/

theorem createSafeName_data_cons (title : String) (proposalId : Nat) :
    ∃ r, (createSafeName title proposalId).data = 'p' :: r :=
  ⟨_, rfl⟩

theorem createSafeName_getLast (title : String) (proposalId : Nat) :
    (createSafeName title proposalId).data.getLast? = some 'f' := by
  unfold createSafeName
  rw [String.data_append, List.getLast?_append]
  have hp : (".pdf" : String).data.getLast? = some 'f' := by decide
  rw [hp]
  rfl

theorem createSafeName_allowed (title : String) (proposalId : Nat)
    (hdigits : ∀ c ∈ (toString proposalId).data, allowedChar c = true) :
    ∀ c ∈ (createSafeName title proposalId).data, allowedChar c = true := by
  intro c hc
  unfold createSafeName at hc
  simp only [String.data_append, List.mem_append] at hc
  have hlit1 : ∀ x ∈ ("proposal_" : String).data, allowedChar x = true := by decide
  have hlit2 : ∀ x ∈ ("_" : String).data, allowedChar x = true := by decide
  have hlit3 : ∀ x ∈ (".pdf" : String).data, allowedChar x = true := by decide
  rcases hc with ((((hc | hc) | hc) | hc) | hc)
  · exact hlit1 c hc
  · have : c ∈ (secure_filename title).data := List.take_subset _ _ hc
    exact secure_filename_allowed title c this
  · exact hlit2 c hc
  · exact hdigits c hc
  · exact hlit3 c hc

/-- The sanitizer applied a second time inside the storage resolver
leaves the composed filename unchanged. -/
theorem resolveSafeFilename_createSafeName (title : String) (proposalId : Nat)
    (uid : String)
    (hdigits : ∀ c ∈ (toString proposalId).data, allowedChar c = true) :
    resolveSafeFilename (createSafeName title proposalId) uid
      = createSafeName title proposalId := by
  obtain ⟨r, hr⟩ := createSafeName_data_cons title proposalId
  have hsec : secure_filename (createSafeName title proposalId)
      = createSafeName title proposalId := by
    apply secure_filename_clean
    · exact createSafeName_allowed title proposalId hdigits
    · intro c t h
      rw [hr] at h
      cases h
      decide
    · intro c t h
      have hgl := createSafeName_getLast title proposalId
      rw [h, List.getLast?_concat] at hgl
      cases Option.some.inj hgl
      decide
    · rw [hr]
      simp
  unfold resolveSafeFilename
  rw [hsec, if_neg]
  intro hemp
  rw [show ("" : String) = String.mk [] from rfl] at hemp
  have := congrArg String.data hemp
  rw [hr] at this
  simp at this

/-- C8 counterexample: the claim composes the filename from the
sanitized client name AND project type, each truncated to 40
characters, joined with underscores and a random unique suffix.  The
spec-shaped filename for the concrete create request
(title "Acme", content "Website redesign") never equals what the code
produces, whatever the random suffix: the code builds
`proposal_{secure_filename(title)[:40]}_{proposal.id}.pdf` from the
title alone, with the database id as suffix. -/
def claimedFilename (clientName projectType suffix : String) : String :=
  pySlice (secure_filename clientName) 40 ++ "_"
    ++ pySlice (secure_filename projectType) 40 ++ "_" ++ suffix ++ ".pdf"

theorem filename_not_from_two_fields :
    (proposals_create true (some "Acme") (some "Website redesign") true 7 false
        (Except.ok ()) (Except.ok "r2url") (Except.ok ()) "http://localhost:5000" "u").1
      = CreateResponse.created "Acme" "Website redesign"
          (some "proposal_Acme_7.pdf")
          (some "http://localhost:5000/api/proposals/download/proposal_Acme_7.pdf")
      ∧ ¬ ∃ suffix : String,
          claimedFilename "Acme" "Website redesign" suffix = "proposal_Acme_7.pdf" := by
  constructor
  · decide
  · rintro ⟨suffix, h⟩
    have h1 : pySlice (secure_filename "Acme") 40 = "Acme" := by decide
    have h2 : pySlice (secure_filename "Website redesign") 40 = "Website_redesign" := by
      decide
    unfold claimedFilename at h
    rw [h1, h2] at h
    have hlen := congrArg String.length h
    simp only [String.length_append] at hlen
    have ha : ("Acme" : String).length = 4 := rfl
    have hb : ("_" : String).length = 1 := rfl
    have hc : ("Website_redesign" : String).length = 16 := rfl
    have hd : (".pdf" : String).length = 4 := rfl
    have he : ("proposal_Acme_7.pdf" : String).length = 19 := rfl
    rw [ha, hb, hc, hd, he] at hlen
    omega

/-- C8 amended: for a valid create request with PDF generation on, the
suggested filename is `proposal_`, then the sanitized title truncated
to 40 characters, an underscore, the proposal's database id, and the
fixed `.pdf` extension; the storage resolver returns it unchanged
(shown here with the local write succeeding, which covers every
storage-collaborator combination). -/
theorem create_filename_formula (titleIn contentIn : Option String)
    (proposalId : Nat) (r2Configured : Bool) (uploadOutcome : Except Unit Unit)
    (presignOutcome : Except Unit String) (baseUrl uid : String)
    (ht : pyStrip (titleIn.getD "") ≠ "") (hc : pyStrip (contentIn.getD "") ≠ "")
    (hdigits : ∀ c ∈ (toString proposalId).data, allowedChar c = true) :
    ∃ url : String,
      proposals_create true titleIn contentIn true proposalId r2Configured
          uploadOutcome presignOutcome (Except.ok ()) baseUrl uid
        = (CreateResponse.created (pyStrip (titleIn.getD ""))
            (pyStrip (contentIn.getD ""))
            (some ("proposal_"
              ++ pySlice (secure_filename (pyStrip (titleIn.getD ""))) 40
              ++ "_" ++ toString proposalId ++ ".pdf"))
            (some url),
           ⟨some (build_pdf_bytes_from_content (pyStrip (titleIn.getD ""))
              (pyStrip (contentIn.getD ""))), true⟩) := by
  have hres := resolveSafeFilename_createSafeName (pyStrip (titleIn.getD ""))
    proposalId uid hdigits
  simp only [proposals_create, Bool.not_true, Bool.false_eq_true, if_false,
    store_pdf_and_get_url, hres]
  rw [if_neg (by simp [ht, hc])]
  simp only [if_true]
  by_cases hr2 : r2Configured
  · subst hr2
    cases uploadOutcome with
    | error e =>
      exact ⟨(baseUrl ++ "/api/proposals/download/" ++ createSafeName (pyStrip (titleIn.getD "")) proposalId), by simp [createSafeName]⟩
    | ok u =>
      cases presignOutcome with
      | error e =>
        exact ⟨(baseUrl ++ "/api/proposals/download/" ++ createSafeName (pyStrip (titleIn.getD "")) proposalId), by simp [createSafeName]⟩
      | ok url =>
        by_cases hurl : url = ""
        · subst hurl
          exact ⟨(baseUrl ++ "/api/proposals/download/" ++ createSafeName (pyStrip (titleIn.getD "")) proposalId), by simp [createSafeName]⟩
        · refine ⟨url, ?_⟩
          simp only [if_true]
          rw [if_neg (by simpa using hurl)]
          simp [createSafeName]
  · simp only [if_neg hr2]
    exact ⟨(baseUrl ++ "/api/proposals/download/" ++ createSafeName (pyStrip (titleIn.getD "")) proposalId), by simp [createSafeName]⟩

theorem create_filename_formula_witness :
    ∃ url : String,
      proposals_create true (some "Acme") (some "Website redesign") true 7 false
          (Except.ok ()) (Except.ok "r2url") (Except.ok ()) "http://localhost:5000" "u"
        = (CreateResponse.created "Acme" "Website redesign"
            (some "proposal_Acme_7.pdf") (some url),
           ⟨some (build_pdf_bytes_from_content "Acme" "Website redesign"), true⟩) := by
  have h := create_filename_formula (some "Acme") (some "Website redesign") 7 false
    (Except.ok ()) (Except.ok "r2url") "http://localhost:5000" "u"
    (by decide) (by decide) (by decide)
  simpa using h

/-! ## Pricing catalog -/

structure LineItem where
  name : String
  price : ℚ
  duration : String

structure PricingResult where
  items : List LineItem
  total : ℚ

/-- Round a rational to 2 decimal places (`round(x, 2)`). -/
def round2 (x : ℚ) : ℚ := ((round (x * 100) : ℤ) : ℚ) / 100

/-- Modelled from the spec: the website bundle enumerated in the
end-to-end scenario of §8 (Discovery & Planning 500, Design &
Prototyping 1200, Development (static pages) 1800, QA & Launch 400). -/
def websiteBundle : List (String × ℚ × String) :=
  [("Discovery & Planning", 500, "1 week"),
   ("Design & Prototyping", 1200, "2 weeks"),
   ("Development (static pages)", 1800, "3 weeks"),
   ("QA & Launch", 400, "1 week")]

/-- Modelled from the spec: §4.1 requires a fixed hardcoded mobile
bundle but does not enumerate its items; a representative non-empty
bundle is used (the claims proved below do not depend on the amounts). -/
def mobileBundle : List (String × ℚ × String) :=
  [("Discovery & Planning", 600, "1 week"),
   ("UI/UX Design", 1500, "2 weeks"),
   ("App Development", 3000, "4 weeks"),
   ("QA & Launch", 500, "1 week")]

/-- Modelled from the spec: §4.1 requires a fixed hardcoded
seo/marketing bundle but does not enumerate its items; a representative
non-empty bundle is used. -/
def marketingBundle : List (String × ℚ × String) :=
  [("SEO Audit", 300, "1 week"),
   ("Keyword & Content Strategy", 400, "1 week"),
   ("On-page Optimization & Link Building", 900, "4 weeks"),
   ("Monthly Reporting", 200, "ongoing")]

/-- Modelled from the spec: the generic bundle enumerated in the
end-to-end scenario of §8 (Discovery & Requirements 400, Execution
1500, Maintenance (1 month) 200). -/
def genericBundle : List (String × ℚ × String) :=
  [("Discovery & Requirements", 400, "1 week"),
   ("Execution", 1500, "3 weeks"),
   ("Maintenance (1 month)", 200, "1 month")]

/-- Modelled from the spec: the Pricing Catalog `price(project_type)`
of §4.1 (this component lives in a repository variant that is not part
of src/app.py).  Normalize (trim, lowercase); first matching keyword
predicate wins, in the order website, mobile/app, seo/marketing,
generic; per-item prices are rounded to 2 decimals before summation;
the 5% contingency on the pre-contingency subtotal is appended last and
the final total is rounded to 2 decimals. -/
def price (project_type : String) : PricingResult :=
  let t := (pyStrip project_type).toLower.data
  let bundle :=
    if listContains t "website".data then websiteBundle
    else if listContains t "mobile".data || listContains t "app".data then
      mobileBundle
    else if listContains t "seo".data || listContains t "marketing".data then
      marketingBundle
    else genericBundle
  let items := bundle.map fun b => LineItem.mk b.1 (round2 b.2.1) b.2.2
  let subtotal := (items.map LineItem.price).sum
  let contingency := LineItem.mk "Contingency (5%)" (round2 (5 / 100 * subtotal)) "—"
  let allItems := items ++ [contingency]
  PricingResult.mk allItems (round2 ((allItems.map LineItem.price).sum))

/-! ## Claim C4 -/

/-- C4: for all supported keyword categories and for unmatched input,
the pricing result is a non-empty item list ending in a
"Contingency (5%)" item whose price is exactly `round2` of 5% of the
pre-contingency subtotal. -/
theorem price_ends_with_contingency (project_type : String) :
    (price project_type).items ≠ []
      ∧ ∃ pre fin, (price project_type).items = pre ++ [fin]
        ∧ pre ≠ []
        ∧ fin.name = "Contingency (5%)"
        ∧ fin.price = round2 (5 / 100 * (pre.map LineItem.price).sum) := by
  simp only [price]
  split_ifs with h1 h2 h3 <;>
    exact ⟨by simp, _, _, rfl,
      by simp [websiteBundle, mobileBundle, marketingBundle, genericBundle],
      rfl, rfl⟩

end Propsely
